import Mathlib

/-!
Verification of `scripts/moltbot-daily-report.py` (Moltbot daily report
generator for PelangiManager).

The Python program is shallowly embedded below.  JSON values decoded by the
client are modelled by the inductive type `Json`; Python runtime errors that
can escape a function (KeyError, TypeError, AttributeError, a bare
`Exception` raised by `call_tool`) are modelled with `Except PyErr`.
Python-level primitives used by the script (`in`, `dict.get`, subscripting,
`len`, truthiness, `str()`, `", ".join`, `str.rstrip`, iteration) are given
explicit executable models, and each function of the script is translated
clause by clause.
-/

/-- Decoded JSON values, as produced by `json.loads` in the script.
Numbers are modelled as integers (all numeric payloads in this program are
integral counts and rates). -/
inductive Json where
  | null : Json
  | bool : Bool → Json
  | num : Int → Json
  | str : String → Json
  | arr : List Json → Json
  | obj : List (String × Json) → Json

/-- Python exceptions that can escape the embedded functions. -/
inductive PyErr where
  | exception : String → PyErr
  | keyError : String → PyErr
  | typeError : PyErr
  | attributeError : PyErr
deriving Repr, DecidableEq

/-- First value stored under key `k` of a JSON object association list
(Python dicts have unique keys, so first occurrence is the value). -/
def lookupKey (kvs : List (String × Json)) (k : String) : Option Json :=
  (kvs.find? (fun kv => kv.1 == k)).map (fun kv => kv.2)

/-- Whether a JSON object association list has key `k`. -/
def hasKey (kvs : List (String × Json)) (k : String) : Bool :=
  kvs.any (fun kv => kv.1 == k)

/-- Python truthiness of a decoded JSON value (`bool(x)`). -/
def pyTruthy : Json → Bool
  | .null => false
  | .bool b => b
  | .num n => n != 0
  | .str s => s != ""
  | .arr xs => !xs.isEmpty
  | .obj kvs => !kvs.isEmpty

/-- A single-quote character, used by Python `repr` of strings. -/
def pyQuote : String := String.singleton (Char.ofNat 39)

mutual
/-- Python `repr()` of a decoded JSON value. -/
def pyRepr : Json → String
  | .null => "None"
  | .bool true => "True"
  | .bool false => "False"
  | .num n => toString n
  | .str s => pyQuote ++ s ++ pyQuote
  | .arr xs => "[" ++ pyReprList xs ++ "]"
  | .obj kvs => "\x7b" ++ pyReprObj kvs ++ "\x7d"

/-- Comma-separated `repr` of list elements. -/
def pyReprList : List Json → String
  | [] => ""
  | [x] => pyRepr x
  | x :: xs => pyRepr x ++ ", " ++ pyReprList xs

/-- Comma-separated `repr` of dict entries. -/
def pyReprObj : List (String × Json) → String
  | [] => ""
  | [kv] => pyQuote ++ kv.1 ++ pyQuote ++ ": " ++ pyRepr kv.2
  | kv :: kvs => pyQuote ++ kv.1 ++ pyQuote ++ ": " ++ pyRepr kv.2 ++ ", " ++ pyReprObj kvs
end

/-- Python `str()` of a decoded JSON value (used by f-string interpolation). -/
def pyStr : Json → String
  | .str s => s
  | j => pyRepr j

/-- Python `k in x` for a string `k`: key membership in a dict, element
membership in a list, substring test on a string, `TypeError` otherwise. -/
def pyContains (k : String) : Json → Except PyErr Bool
  | .obj kvs => .ok (hasKey kvs k)
  | .arr xs => .ok (xs.any (fun x => match x with | .str s => s == k | _ => false))
  | .str s => .ok (decide ((s.splitOn k).length ≥ 2))
  | _ => .error .typeError

/-- Python `x.get(k, dflt)`: only dicts have `.get`; anything else raises
`AttributeError`. -/
def dictGet (x : Json) (k : String) (dflt : Json) : Except PyErr Json :=
  match x with
  | .obj kvs => .ok ((lookupKey kvs k).getD dflt)
  | _ => .error .attributeError

/-- Python `x[k]` for a string key `k`: dict lookup raising `KeyError` when
absent, `TypeError` on lists and other values. -/
def subscriptKey (x : Json) (k : String) : Except PyErr Json :=
  match x with
  | .obj kvs =>
    match lookupKey kvs k with
    | some v => .ok v
    | none => .error (.keyError k)
  | _ => .error .typeError

/-- Python `len(x)`: defined for lists, dicts and strings, `TypeError`
otherwise. -/
def pyLen : Json → Except PyErr Nat
  | .arr xs => .ok xs.length
  | .obj kvs => .ok kvs.length
  | .str s => .ok s.length
  | _ => .error .typeError

/-- Python `x[0]`: first element of a list or string; a dict raises
`KeyError` for the integer key, other values `TypeError`.  Only reached in
the script when `len(x) > 0`. -/
def subscriptZero : Json → Except PyErr Json
  | .arr (x :: _) => .ok x
  | .arr [] => .error .typeError
  | .str s =>
    match s.toList with
    | c :: _ => .ok (.str (String.singleton c))
    | [] => .error .typeError
  | .obj _ => .error (.keyError "0")
  | _ => .error .typeError

/-- Python iteration `for x in y`: list elements, dict keys, string
characters; `TypeError` otherwise. -/
def pyIter : Json → Except PyErr (List Json)
  | .arr xs => .ok xs
  | .obj kvs => .ok (kvs.map (fun kv => .str kv.1))
  | .str s => .ok (s.toList.map (fun c => .str (String.singleton c)))
  | _ => .error .typeError

/-- Python `sep.join(xs)` on a list of actual strings. -/
def joinSep (sep : String) : List String → String
  | [] => ""
  | [s] => s
  | s :: rest => s ++ sep ++ joinSep sep rest

/-- Python `sep.join(xs)`: every element must be a string, `TypeError`
otherwise (raised at the first non-string element). -/
def pyJoin (sep : String) : List Json → Except PyErr String
  | [] => .ok ""
  | [.str s] => .ok s
  | .str s :: x :: xs => do
    let r ← pyJoin sep (x :: xs)
    .ok (s ++ sep ++ r)
  | _ => .error .typeError

/-- Python `str.upper()` on one ASCII character. -/
def pyUpperChar (c : Char) : Char :=
  if 'a' <= c && c <= 'z' then Char.ofNat (c.toNat - 32) else c

/-- Python `str.upper()` (the section names it is applied to are plain
ASCII). -/
def pyUpper (s : String) : String := String.mk (s.toList.map pyUpperChar)

/-- ASCII whitespace stripped by Python `str.rstrip()` (the strings built by
this program only ever end in these characters or printable text). -/
def isPySpace (c : Char) : Bool :=
  c == ' ' || c == '\n' || c == '\t' || c == '\r' || c == '\x0b' || c == '\x0c'

/-- Python `s.rstrip()`. -/
def pyRstrip (s : String) : String :=
  String.mk ((s.toList.reverse.dropWhile isPySpace).reverse)

/-! ## MCPClient -/

/-- Outcome of the HTTP POST performed by `MCPClient.call_tool`:
either a `requests` transport failure (connection error / timeout), or an
HTTP response with a status code and a body (`none` models a body that is
not valid JSON, which makes `response.json()` raise
`requests.exceptions.JSONDecodeError`). -/
inductive RemoteResponse where
  | netError : String → RemoteResponse
  | httpResponse : Nat → Option Json → RemoteResponse

/-- Processing of a decoded response envelope by `MCPClient.call_tool`
(the part of the function after `result = response.json()`).  The `decode`
parameter models `json.loads` applied to the doubly-encoded inner text.
The `raise Exception(...)` on an `error` field is a bare `Exception`: it is
NOT an instance of `requests.exceptions.RequestException`, so the
function's only `except` clause does not catch it and it escapes, modelled
as `Except.error`. -/
def callToolDispatch (decode : String → Option Json) (result : Json) :
    Except PyErr Json := do
  let hasErr ← pyContains "error" result
  if hasErr then do
    let ev ← subscriptKey result "error"
    .error (.exception ("MCP Error: " ++ pyStr ev))
  else do
    let hasRes ← pyContains "result" result
    if hasRes then do
      let resVal ← subscriptKey result "result"
      let hasContent ← pyContains "content" resVal
      if hasContent then do
        let content ← subscriptKey resVal "content"
        if pyTruthy content then do
          let n ← pyLen content
          if 0 < n then do
            let first ← subscriptZero content
            let text ← dictGet first "text" (.str "\x7b\x7d")
            match text with
            | .str s =>
              match decode s with
              | some j => .ok j
              | none => .ok (.obj [("raw", .str s)])
            | _ => .error .typeError
          else .ok result
        else .ok result
      else .ok result
    else .ok result

/-- Model of `MCPClient.call_tool`: transport errors, non-2xx statuses
(`raise_for_status`) and malformed response bodies are
`requests.exceptions.RequestException`s, caught by the `except` clause and
converted to the in-band value `{"error": str(e)}` (the exact exception
message text is abstracted; callers only test for the presence of the
`"error"` key).  A well-formed envelope is then handed to
`callToolDispatch`. -/
def call_tool (decode : String → Option Json) (resp : RemoteResponse) :
    Except PyErr Json :=
  match resp with
  | .netError msg => .ok (.obj [("error", .str msg)])
  | .httpResponse status body =>
    if 400 ≤ status then
      .ok (.obj [("error", .str ("HTTP error " ++ toString status))])
    else
      match body with
      | none => .ok (.obj [("error", .str "Invalid JSON body")])
      | some result => callToolDispatch decode result

/-! ## ReportGenerator: section bodies

Each `_generate_*_section` method first performs one `call_tool` and then
processes its result; the processing part is embedded as a `*Body`
function of the tool-call result, and the method itself is the composition
(see `occupancySection` etc. further below). -/

/-- Placeholder produced by `_generate_occupancy_section` on a tool error. -/
def occupancyUnavailable : String :=
  "📊 OCCUPANCY STATISTICS\n═══════════════════════\n⚠️ Data unavailable"

/-- The f-string template of `_generate_occupancy_section` with its four
interpolation slots. -/
def occupancyRender (total occupied available rate : String) : String :=
  "📊 OCCUPANCY STATISTICS\n═══════════════════════\nTotal Capsules: "
    ++ total ++ "\nOccupied: " ++ occupied
    ++ " capsules\nAvailable: " ++ available
    ++ " capsules\nOccupancy Rate: " ++ rate ++ "%"

/-- Body of `_generate_occupancy_section` applied to the `call_tool`
result. -/
def occupancyBody (data : Json) : Except PyErr String := do
  let hasErr ← pyContains "error" data
  if hasErr then
    .ok occupancyUnavailable
  else do
    let total ← dictGet data "total" (.num 0)
    let occupied ← dictGet data "occupied" (.num 0)
    let available ← dictGet data "available" (.num 0)
    let rate ← dictGet data "occupancyRate" (.num 0)
    .ok (occupancyRender (pyStr total) (pyStr occupied) (pyStr available) (pyStr rate))

/-- Placeholder produced by `_generate_capsule_section` on a tool error or
non-list response. -/
def capsuleUnavailable : String :=
  "🛏️ CAPSULE STATUS BY SECTION\n═══════════════════════════\n⚠️ Data unavailable"

/-- The loop `for capsule in capsules` of `_generate_capsule_section`,
filling the dict `sections = {"back": [], "middle": [], "front": []}`.
`capsule.get("section", "unknown")` raises `AttributeError` on non-dict
records; an unhashable tag value (list/dict) makes the membership test
`section in sections` raise `TypeError`. -/
def classifyCapsules : List Json → Except PyErr (List Json × List Json × List Json)
  | [] => .ok ([], [], [])
  | c :: rest => do
    let sec ← dictGet c "section" (.str "unknown")
    match sec with
    | .arr _ => .error .typeError
    | .obj _ => .error .typeError
    | .str t => do
      let (b, m, f) ← classifyCapsules rest
      if t == "back" then .ok (c :: b, m, f)
      else if t == "middle" then .ok (b, c :: m, f)
      else if t == "front" then .ok (b, m, c :: f)
      else .ok (b, m, f)
    | _ => do
      let g ← classifyCapsules rest
      .ok g

/-- A list comprehension `[c["number"] for c in capsule_list if keep(bool(c.get("isAvailable")))]`
from `_generate_capsule_section`; `c["number"]` raises `KeyError` when the
key is missing. -/
def comprehendNumbers (keep : Bool → Bool) : List Json → Except PyErr (List Json)
  | [] => .ok []
  | c :: rest => do
    let av ← dictGet c "isAvailable" .null
    if keep (pyTruthy av) then do
      let n ← subscriptKey c "number"
      let ns ← comprehendNumbers keep rest
      .ok (n :: ns)
    else
      comprehendNumbers keep rest

/-- One iteration of `for section_name, capsule_list in sections.items()`:
an empty group is skipped (`continue`), a non-empty group contributes a
title line, an Occupied line, an Available line and a blank line. -/
def groupLines (name : String) (cl : List Json) : Except PyErr (List String) :=
  if cl.isEmpty then .ok []
  else do
    let occupied ← comprehendNumbers (fun b => !b) cl
    let available ← comprehendNumbers (fun b => b) cl
    let occStr ← if occupied.isEmpty then Except.ok "None" else pyJoin ", " occupied
    let avStr ← if available.isEmpty then Except.ok "None" else pyJoin ", " available
    .ok [pyUpper name ++ " SECTION (" ++ toString cl.length ++ " capsules):",
         "  Occupied: " ++ occStr,
         "  Available: " ++ avStr,
         ""]

/-- Body of `_generate_capsule_section` applied to the `call_tool` result.
Note that when the result is a list, `"error" in capsules` is Python list
membership: it is true when some element is the string `"error"`. -/
def capsuleBody (capsules : Json) : Except PyErr String := do
  let hasErr ← pyContains "error" capsules
  match hasErr, capsules with
  | false, .arr xs => do
    let (b, m, f) ← classifyCapsules xs
    let bl ← groupLines "back" b
    let ml ← groupLines "middle" m
    let fl ← groupLines "front" f
    .ok (pyRstrip (joinSep "\n"
      (["🛏️ CAPSULE STATUS BY SECTION", "═══════════════════════════", ""]
        ++ bl ++ ml ++ fl)))
  | _, _ => .ok capsuleUnavailable

/-- Placeholder produced by `_generate_guest_section` on a tool error. -/
def guestUnavailable : String :=
  "👥 GUEST INFORMATION\n═══════════════════\n⚠️ Data unavailable"

/-- Body of `_generate_guest_section` applied to the `call_tool` result. -/
def guestBody (guests : Json) : Except PyErr String := do
  let hasErr ← pyContains "error" guests
  if hasErr then
    .ok guestUnavailable
  else do
    let count ← match guests with
      | .obj kvs =>
        if hasKey kvs "data" then do
          let d ← subscriptKey guests "data"
          pyLen d
        else Except.ok 0
      | .arr xs => Except.ok xs.length
      | _ => Except.ok 0
    .ok ("👥 GUEST INFORMATION\n═══════════════════\nChecked-in Guests: "
      ++ toString count)

/-- Placeholder produced by `_generate_overdue_section` on a tool error. -/
def overdueUnavailable : String :=
  "⚠️ OVERDUE GUESTS\n═══════════════════\n⚠️ Data unavailable"

/-- Message produced by `_generate_overdue_section` when the overdue list
is empty (or falsy). -/
def overdueEmpty : String :=
  "⚠️ OVERDUE GUESTS\n═══════════════════\n✅ No overdue guests"

/-- One iteration of the guest loop of `_generate_overdue_section`:
`guest.get(...)` with per-field default placeholders. -/
def guestLine (guest : Json) : Except PyErr String := do
  let name ← dictGet guest "name" (.str "Unknown")
  let capsule ← dictGet guest "capsuleNumber" (.str "N/A")
  let expected ← dictGet guest "expectedCheckoutDate" (.str "N/A")
  .ok ("  - " ++ pyStr name ++ " (Capsule " ++ pyStr capsule
    ++ ") - Expected: " ++ pyStr expected)

/-- The guest loop of `_generate_overdue_section`. -/
def overdueLoop : List Json → Except PyErr (List String)
  | [] => .ok []
  | g :: gs => do
    let line ← guestLine g
    let rest ← overdueLoop gs
    .ok (line :: rest)

/-- Body of `_generate_overdue_section` applied to the `call_tool` result.
`if not overdue or len(overdue) == 0` short-circuits: `len` is only
evaluated on truthy values. -/
def overdueBody (overdue : Json) : Except PyErr String := do
  let hasErr ← pyContains "error" overdue
  if hasErr then
    .ok overdueUnavailable
  else if !pyTruthy overdue then
    .ok overdueEmpty
  else do
    let n ← pyLen overdue
    if n == 0 then
      .ok overdueEmpty
    else do
      let items ← pyIter overdue
      let lines ← overdueLoop items
      .ok (joinSep "\n"
        (["⚠️ OVERDUE GUESTS", "═══════════════════",
          "⚠️ " ++ toString n ++ " guest(s) past expected checkout:", ""]
          ++ lines))

/-- Placeholder produced by `_generate_maintenance_section` on a tool
error. -/
def maintenanceUnavailable : String :=
  "🔧 MAINTENANCE STATUS\n═══════════════════════\n⚠️ Data unavailable"

/-- Default message of `_generate_maintenance_section`. -/
def maintenanceDefault : String :=
  "🔧 MAINTENANCE STATUS\n═══════════════════════\n✅ No active maintenance issues"

/-- Body of `_generate_maintenance_section` applied to the `call_tool`
result.  The function can return the non-string value found under the
`"raw"` key unchanged, so its result is a `Json` value, not a `String`. -/
def maintenanceBody (whatsappFormat : Json) : Except PyErr Json := do
  let hasErr ← pyContains "error" whatsappFormat
  if hasErr then
    .ok (.str maintenanceUnavailable)
  else
    match whatsappFormat with
    | .obj kvs =>
      if hasKey kvs "raw" then subscriptKey whatsappFormat "raw"
      else .ok (.str maintenanceDefault)
    | .str s => .ok (.str s)
    | _ => .ok (.str maintenanceDefault)

/-! ## ReportDelivery and `generate_and_send_report`

The module-level configuration constants (`TELEGRAM_BOT_TOKEN`,
`TELEGRAM_CHAT_ID`, `WHATSAPP_API_URL`, `EMAIL_CONFIG["sender"]`) are
placeholders the operator fills in before running the script; they are
modelled as fields of the run environment, together with the outcomes of
the external I/O the run performs (health probes, tool-call responses,
channel HTTP posts / SMTP sessions, the backup file write, the wall
clock). -/

/-- Model of `ReportDelivery.send_telegram`: returns `False` when the credentials
are unconfigured, otherwise the outcome of the HTTP post; the `except`
clause swallows any delivery exception into `False`.  Never raises. -/
def send_telegram (botToken chatId : String) (postOk : Bool) : Bool :=
  if botToken == "" || chatId == "" then false else postOk

/-- Model of `ReportDelivery.send_whatsapp`: analogous to `send_telegram`. -/
def send_whatsapp (apiUrl : String) (postOk : Bool) : Bool :=
  if apiUrl == "" then false else postOk

/-- Model of `ReportDelivery.send_email`: the whole body is inside `try`, so the
result is simply the outcome of the SMTP session.  Never raises. -/
def send_email (sendOk : Bool) : Bool := sendOk

/-- Model of `ReportDelivery.save_to_file`: the write is inside `try`, so the result
is the outcome of the file write.  Never raises. -/
def save_to_file (writeOk : Bool) : Bool := writeOk

/-- Remote delivery channels of the script. -/
inductive Channel where
  | telegram | whatsapp | email
deriving Repr, DecidableEq

/-- Observable steps of one `generate_and_send_report` run. -/
inductive RunAction where
  | healthCheck : Bool → RunAction
  | sleepSecs : Nat → RunAction
  | alertSend : Bool → RunAction
  | generateReport : RunAction
  | saveFile : Bool → RunAction
  | channelSend : Channel → Bool → RunAction
deriving Repr, DecidableEq

/-- Environment of one run: configuration constants and outcomes of the
external world. -/
structure Env where
  health : Nat → Bool
  responses : String → RemoteResponse
  decode : String → Option Json
  timestamp : String
  tgToken : String
  tgChat : String
  waUrl : String
  emailSender : String
  alertPostOk : Bool
  tgPostOk : Bool
  waPostOk : Bool
  emailSendOk : Bool
  savePathOk : Bool

/-- Method `_generate_occupancy_section` (tool call plus body). -/
def occupancySection (env : Env) : Except PyErr String := do
  let data ← call_tool env.decode (env.responses "pelangi_get_occupancy")
  occupancyBody data

/-- Method `_generate_capsule_section` (tool call plus body). -/
def capsuleSection (env : Env) : Except PyErr String := do
  let capsules ← call_tool env.decode (env.responses "pelangi_list_capsules")
  capsuleBody capsules

/-- Method `_generate_guest_section` (tool call plus body). -/
def guestSection (env : Env) : Except PyErr String := do
  let guests ← call_tool env.decode (env.responses "pelangi_list_guests")
  guestBody guests

/-- Method `_generate_overdue_section` (tool call plus body). -/
def overdueSection (env : Env) : Except PyErr String := do
  let overdue ← call_tool env.decode (env.responses "pelangi_get_overdue_guests")
  overdueBody overdue

/-- Method `_generate_maintenance_section` (tool call plus body). -/
def maintenanceSection (env : Env) : Except PyErr Json := do
  let whatsappFormat ← call_tool env.decode (env.responses "pelangi_export_whatsapp_issues")
  maintenanceBody whatsappFormat

/-- Model of `ReportGenerator.generate_report`: the report list is joined with
`"\n"`; the maintenance section may contribute a non-string value, making
the final join raise `TypeError`, so the join is `pyJoin`. -/
def generate_report (env : Env) : Except PyErr String := do
  let occ ← occupancySection env
  let cap ← capsuleSection env
  let gue ← guestSection env
  let ove ← overdueSection env
  let mai ← maintenanceSection env
  pyJoin "\n"
    [.str "🏨 PELANGI CAPSULE HOSTEL - DAILY OPERATIONS REPORT",
     .str (String.mk (List.replicate 55 '═')),
     .str "",
     .str occ, .str "",
     .str cap, .str "",
     .str gue, .str "",
     .str ove, .str "",
     mai, .str "",
     .str (String.mk (List.replicate 55 '═')),
     .str ("📅 Report Generated: " ++ env.timestamp),
     .str "🤖 Automated by Moltbot v1.0"]

/-- The health-check retry loop `for attempt in range(max_retries)` of
`generate_and_send_report`.  Returns the performed actions and whether the
loop ended with a healthy server (`break`); on the last failed attempt the
loop sends one alert through `send_telegram` and the whole run returns. -/
def healthRetryLoop (env : Env) (maxRetries : Nat) : List Nat → List RunAction × Bool
  | [] => ([], true)
  | attempt :: rest =>
    if env.health attempt then ([.healthCheck true], true)
    else if attempt < maxRetries - 1 then
      let (acts, healthy) := healthRetryLoop env maxRetries rest
      (.healthCheck false :: .sleepSecs 5 :: acts, healthy)
    else
      ([.healthCheck false,
        .alertSend (send_telegram env.tgToken env.tgChat env.alertPostOk)], false)

/-- Result of a run: the performed actions and the final value of the
`delivery_success` local (`none` when the run returned before reaching
delivery). -/
structure RunResult where
  trace : List RunAction
  deliverySuccess : Option Bool
deriving Repr, DecidableEq

/-- Model of `generate_and_send_report`: health-check retry, report generation,
local backup, then each configured channel in turn. -/
def generate_and_send_report (env : Env) : Except PyErr RunResult := do
  let (acts, healthy) := healthRetryLoop env 3 (List.range 3)
  if !healthy then
    .ok { trace := acts, deliverySuccess := none }
  else do
    let _report ← generate_report env
    let saveRes := save_to_file env.savePathOk
    let acts := acts ++ [.generateReport, .saveFile saveRes]
    let ds := false
    let (acts, ds) :=
      if env.tgToken != "" && env.tgChat != "" then
        let r := send_telegram env.tgToken env.tgChat env.tgPostOk
        (acts ++ [.channelSend .telegram r], r)
      else (acts, ds)
    let (acts, ds) :=
      if env.waUrl != "" then
        let r := send_whatsapp env.waUrl env.waPostOk
        (acts ++ [.channelSend .whatsapp r], r || ds)
      else (acts, ds)
    let (acts, ds) :=
      if env.emailSender != "" then
        let r := send_email env.emailSendOk
        (acts ++ [.channelSend .email r], r || ds)
      else (acts, ds)
    .ok { trace := acts, deliverySuccess := some ds }

/-! ## Specification-side definitions

The definitions below restate, in the spec's vocabulary, what the
generator is claimed to do with capsule, guest and overdue records; the
theorems relate them to the embedded code. -/

/-- Value stored under key `k` of `g` when `g` is a dict having it, the
default otherwise (the spec's "defaulting each missing field"). -/
def objGetD (g : Json) (k : String) (dflt : Json) : Json :=
  match g with
  | .obj kvs => (lookupKey kvs k).getD dflt
  | _ => dflt

/-- The section tag of a capsule record (default tag when absent). -/
def tagOf (c : Json) : Json := objGetD c "section" (.str "unknown")

/-- Whether a capsule record carries the section tag `t`. -/
def tagIs (t : String) (c : Json) : Bool :=
  match tagOf c with
  | .str s => s == t
  | _ => false

/-- The availability flag of a capsule record. -/
def availOf (c : Json) : Bool := pyTruthy (objGetD c "isAvailable" .null)

/-- The value under `"number"` of a capsule record. -/
def numValOf (c : Json) : Json := objGetD c "number" .null

/-- The capsule number string of a well-formed capsule record. -/
def numStrOf (c : Json) : String :=
  match numValOf c with
  | .str s => s
  | _ => ""

/-- Well-formedness of a capsule record: a dict whose `"number"` value is a
string and whose `"section"` value, if any, is hashable (not a list or
dict).  The generator's happy path assumes exactly this shape; `GoodRec`
records never make `_generate_capsule_section` raise. -/
def GoodRec (c : Json) : Bool :=
  match c with
  | .obj kvs =>
    (match lookupKey kvs "number" with
     | some (.str _) => true
     | _ => false)
    && (match lookupKey kvs "section" with
        | some (.arr _) => false
        | some (.obj _) => false
        | _ => true)
  | _ => false

/-- A record that is a JSON dict. -/
def isObjJson (g : Json) : Bool :=
  match g with
  | .obj _ => true
  | _ => false

/-- The block of lines one group contributes to the capsule section: empty
groups are omitted entirely; a present group lists occupied and available
numbers, with `None` standing for an empty side. -/
def groupBlock (name : String) (cl : List Json) : List String :=
  if cl.isEmpty then []
  else
    [pyUpper name ++ " SECTION (" ++ toString cl.length ++ " capsules):",
     "  Occupied: " ++
       (if (cl.filter (fun c => !availOf c)).isEmpty then "None"
        else joinSep ", " ((cl.filter (fun c => !availOf c)).map numStrOf)),
     "  Available: " ++
       (if (cl.filter (fun c => availOf c)).isEmpty then "None"
        else joinSep ", " ((cl.filter (fun c => availOf c)).map numStrOf)),
     ""]

/-- Fixed header lines of the capsule section. -/
def capsuleHeaderLines : List String :=
  ["🛏️ CAPSULE STATUS BY SECTION", "═══════════════════════════", ""]

/-- Capsule section as the spec describes it: classify each record by its
section tag into exactly the groups back, middle and front (records with
any other tag are silently dropped), split each group by the availability
flag, omit empty groups. -/
def capsuleSectionSpec (xs : List Json) : String :=
  pyRstrip (joinSep "\n"
    (capsuleHeaderLines
      ++ groupBlock "back" (xs.filter (tagIs "back"))
      ++ groupBlock "middle" (xs.filter (tagIs "middle"))
      ++ groupBlock "front" (xs.filter (tagIs "front"))))

/-- The groups that have at least one record, in the fixed rendering order
back, middle, front. -/
def presentGroups (xs : List Json) : List String :=
  ["back", "middle", "front"].filter (fun t => xs.any (fun c => tagIs t c))

/-- One line of the overdue listing as the spec describes it: name,
capsule number and expected checkout date, defaulting each missing field
to its placeholder. -/
def overdueGuestLine (g : Json) : String :=
  "  - " ++ pyStr (objGetD g "name" (.str "Unknown"))
    ++ " (Capsule " ++ pyStr (objGetD g "capsuleNumber" (.str "N/A"))
    ++ ") - Expected: " ++ pyStr (objGetD g "expectedCheckoutDate" (.str "N/A"))

/-- Success render of the guest section for a given count. -/
def guestRender (count : Nat) : String :=
  "👥 GUEST INFORMATION\n═══════════════════\nChecked-in Guests: " ++ toString count

/-! Predicates on run actions, used to state the schedule/delivery
claims. -/

/-- The action is the alert notification attempt. -/
def isAlertAction : RunAction → Bool
  | .alertSend _ => true
  | _ => false

/-- The action is report generation. -/
def isGenerateAction : RunAction → Bool
  | .generateReport => true
  | _ => false

/-- The action is the local backup write. -/
def isSaveAction : RunAction → Bool
  | .saveFile _ => true
  | _ => false

/-- The action is a remote channel delivery attempt. -/
def isChannelAction : RunAction → Bool
  | .channelSend _ _ => true
  | _ => false

/-- The action is a delivery attempt on channel `c`. -/
def isChannelOf (c : Channel) : RunAction → Bool
  | .channelSend c2 _ => c2 == c
  | _ => false

/-- The action is a successful remote channel delivery. -/
def isChannelSuccess : RunAction → Bool
  | .channelSend _ ok => ok
  | _ => false

/-- Telegram is configured (the guard of the first delivery branch). -/
def tgCfg (env : Env) : Bool := env.tgToken != "" && env.tgChat != ""

/-- The remote-channel segment of the run trace. -/
def channelActs (env : Env) : List RunAction :=
  (if tgCfg env then
    [.channelSend .telegram (send_telegram env.tgToken env.tgChat env.tgPostOk)]
   else [])
  ++ (if env.waUrl != "" then
    [.channelSend .whatsapp (send_whatsapp env.waUrl env.waPostOk)]
   else [])
  ++ (if env.emailSender != "" then
    [.channelSend .email (send_email env.emailSendOk)]
   else [])

/-- Final value of the `delivery_success` local on the delivery path. -/
def overallDS (env : Env) : Bool :=
  (if env.emailSender != "" then
    send_email env.emailSendOk ||
      (if env.waUrl != "" then
        send_whatsapp env.waUrl env.waPostOk ||
          (if tgCfg env then send_telegram env.tgToken env.tgChat env.tgPostOk else false)
       else (if tgCfg env then send_telegram env.tgToken env.tgChat env.tgPostOk else false))
   else
    (if env.waUrl != "" then
      send_whatsapp env.waUrl env.waPostOk ||
        (if tgCfg env then send_telegram env.tgToken env.tgChat env.tgPostOk else false)
     else (if tgCfg env then send_telegram env.tgToken env.tgChat env.tgPostOk else false)))

/-- A run environment in which every health probe fails, instantiating the
startup-failure claim. -/
def envAllHealthFail : Env :=
  { health := fun _ => false
    responses := fun _ => .netError "connection refused"
    decode := fun _ => none
    timestamp := "2026-10-12 09:00:00"
    tgToken := ""
    tgChat := ""
    waUrl := ""
    emailSender := ""
    alertPostOk := false
    tgPostOk := false
    waPostOk := false
    emailSendOk := false
    savePathOk := true }

/-- A run environment with a healthy server, failing tool calls (every
section degrades to its placeholder) and only Telegram configured. -/
def envTelegramOnly : Env :=
  { health := fun _ => true
    responses := fun _ => .netError "connection refused"
    decode := fun _ => none
    timestamp := "2026-10-12 09:00:00"
    tgToken := "token"
    tgChat := "chat"
    waUrl := ""
    emailSender := ""
    alertPostOk := true
    tgPostOk := true
    waPostOk := false
    emailSendOk := false
    savePathOk := true }

/-! ## Basic lemmas -/

/-- Bind on a successful `Except` computation. -/
theorem pyOkBind {ε α β : Type} (a : α) (f : α → Except ε β) :
    (Except.ok a : Except ε α) >>= f = f a := rfl

/-- Bind on a failed `Except` computation. -/
theorem pyErrorBind {ε α β : Type} (e : ε) (f : α → Except ε β) :
    (Except.error e : Except ε α) >>= f = Except.error e := rfl

/-- A dict without key `k` looks up to `none`. -/
theorem lookupKey_none_of_hasKey_false (kvs : List (String × Json)) (k : String)
    (h : hasKey kvs k = false) : lookupKey kvs k = none := by
  unfold hasKey at h
  rw [List.any_eq_false] at h
  unfold lookupKey
  have hf : List.find? (fun kv => kv.1 == k) kvs = none := by
    rw [List.find?_eq_none]
    intro x hx
    simpa using h x hx
  rw [hf]
  rfl

/-- A dict with a value under `k` has key `k`. -/
theorem hasKey_of_lookupKey_some (kvs : List (String × Json)) (k : String)
    (v : Json) (h : lookupKey kvs k = some v) : hasKey kvs k = true := by
  unfold lookupKey at h
  unfold hasKey
  rw [List.any_eq_true]
  rcases Option.map_eq_some'.mp h with ⟨kv, hfind, _⟩
  have hp := List.find?_some hfind
  exact ⟨kv, List.mem_of_find?_eq_some hfind, by simpa using hp⟩

/-- Python `str()` of the integer zero. -/
theorem pyStr_num_zero : pyStr (Json.num 0) = "0" := rfl

/-! ## Claim theorems -/

/-- C1: the spec claims `call_tool` never raises past its own boundary,
converting every failure (timeout, non-2xx, malformed envelope, explicit
`error` field) to an in-band error value.  The code converts transport
failures (second conjunct), but for a 2xx envelope that carries an
`error` field it raises a bare `Exception`, which the `except
requests.exceptions.RequestException` clause does not catch, so the
exception escapes `call_tool` (first conjunct): the corresponding report
section never renders its placeholder. -/
theorem callTool_error_envelope_raises :
    (∀ decode, call_tool decode (.httpResponse 200 (some (.obj [("error", .num 5)]))) =
      .error (.exception "MCP Error: 5"))
    ∧ (∀ decode msg,
        call_tool decode (.netError msg) = .ok (.obj [("error", .str msg)])) :=
  ⟨fun _ => rfl, fun _ _ => rfl⟩

/-- C8: the capsule-section builder is partial: a list whose record is
tagged `"front"` but lacks the `"number"` key makes
`_generate_capsule_section` raise `KeyError` instead of degrading to a
placeholder. -/
theorem capsuleSection_missing_number_keyError :
    capsuleBody (.arr [.obj [("section", .str "front"), ("isAvailable", .bool false)]]) =
      .error (.keyError "number") := rfl

/-- Per-record step of the overdue guest loop on a dict record. -/
theorem guestLine_obj (kvs : List (String × Json)) :
    guestLine (.obj kvs) = .ok (overdueGuestLine (.obj kvs)) := rfl

/-- The overdue guest loop maps `overdueGuestLine` over dict records. -/
theorem overdueLoop_eq (gs : List Json) (h : ∀ g ∈ gs, isObjJson g = true) :
    overdueLoop gs = .ok (gs.map overdueGuestLine) := by
  induction gs with
  | nil => rfl
  | cons g rest ih =>
    have hg := h g (List.mem_cons_self _ _)
    have hr := ih (fun x hx => h x (List.mem_cons_of_mem _ hx))
    cases g with
    | obj kvs =>
      simp only [overdueLoop, guestLine_obj, pyOkBind, hr, List.map_cons]
    | null => simp [isObjJson] at hg
    | bool b => simp [isObjJson] at hg
    | num n => simp [isObjJson] at hg
    | str s => simp [isObjJson] at hg
    | arr xs => simp [isObjJson] at hg

/-- C5: the overdue section distinguishes the error case (tool result with
an `error` field, rendering the "Data unavailable" placeholder) from the
empty-list success case (rendering the distinct "No overdue guests"
message); a non-empty list is rendered with one line per guest carrying
name, capsule number and expected checkout date, defaulting each missing
field to its placeholder. -/
theorem overdueSection_distinguishes_cases :
    (∀ v, overdueBody (.obj [("error", v)]) = .ok overdueUnavailable)
    ∧ overdueBody (.arr []) = .ok overdueEmpty
    ∧ overdueEmpty ≠ overdueUnavailable
    ∧ (∀ gs, gs ≠ [] → (∀ g ∈ gs, isObjJson g = true) →
        overdueBody (.arr gs) = .ok (joinSep "\n"
          (["⚠️ OVERDUE GUESTS", "═══════════════════",
            "⚠️ " ++ toString gs.length ++ " guest(s) past expected checkout:", ""]
            ++ gs.map overdueGuestLine))) := by
  refine ⟨fun v => rfl, rfl, by decide, ?_⟩
  intro gs hne hobj
  have herr : (gs.any (fun x => match x with | .str s => s == "error" | _ => false)) = false := by
    rw [List.any_eq_false]
    intro x hx
    have hxo := hobj x hx
    cases x <;> simp_all [isObjJson]
  have htr : pyTruthy (.arr gs) = true := by
    cases gs with
    | nil => exact absurd rfl hne
    | cons a l => rfl
  have hlen : (gs.length == 0) = false := by
    simp [List.length_eq_zero, hne]
  simp only [overdueBody, pyContains, herr, pyOkBind, Bool.false_eq_true, if_false,
    htr, Bool.not_true, pyLen, pyIter, hlen, overdueLoop_eq gs hobj]

/-- C5 witness: the error case and a concrete one-guest list with all
fields missing, evaluated. -/
theorem overdueSection_distinguishes_cases_witness :
    overdueBody (.obj [("error", .str "boom")]) = .ok overdueUnavailable
    ∧ overdueBody (.arr [Json.obj []]) =
        .ok "⚠️ OVERDUE GUESTS\n═══════════════════\n⚠️ 1 guest(s) past expected checkout:\n\n  - Unknown (Capsule N/A) - Expected: N/A" :=
  ⟨overdueSection_distinguishes_cases.1 (.str "boom"),
   overdueSection_distinguishes_cases.2.2.2 [Json.obj []]
     (List.cons_ne_nil _ _)
     (by intro g hg; rw [List.mem_singleton] at hg; subst hg; rfl)⟩

/-- C6: guest count extraction tolerates both response shapes: a bare list
of guest records displays the list's length, and a dict wrapping the list
under the `"data"` key displays the same length. -/
theorem guest_count_shape_tolerant :
    (∀ l : List Json, (∀ x ∈ l, x ≠ Json.str "error") →
       guestBody (.arr l) = .ok (guestRender l.length))
    ∧ (∀ kvs (l : List Json), hasKey kvs "error" = false →
       lookupKey kvs "data" = some (.arr l) →
       guestBody (.obj kvs) = .ok (guestRender l.length)) := by
  constructor
  · intro l h
    have herr : (l.any (fun x => match x with | .str s => s == "error" | _ => false)) = false := by
      rw [List.any_eq_false]
      intro x hx
      have hxe := h x hx
      cases x with
      | str s =>
        simp only [beq_iff_eq]
        intro hs
        exact hxe (by rw [hs])
      | null => simp
      | bool b => simp
      | num n => simp
      | arr xs => simp
      | obj kvs => simp
    simp only [guestBody, pyContains, herr, pyOkBind, Bool.false_eq_true, if_false]
    rfl
  · intro kvs l he hd
    have hk : hasKey kvs "data" = true := hasKey_of_lookupKey_some kvs "data" (.arr l) hd
    simp only [guestBody, pyContains, he, pyOkBind, Bool.false_eq_true, if_false,
      hk, if_true, subscriptKey, hd, pyLen]
    rfl

/-- C6 witness: a bare five-element list and the wrapped form both display
a count of 5. -/
theorem guest_count_shape_tolerant_witness :
    guestBody (.arr [.obj [], .obj [], .obj [], .obj [], .obj []]) =
      .ok "👥 GUEST INFORMATION\n═══════════════════\nChecked-in Guests: 5"
    ∧ guestBody (.obj [("data", .arr [.obj [], .obj [], .obj [], .obj [], .obj []])]) =
      .ok "👥 GUEST INFORMATION\n═══════════════════\nChecked-in Guests: 5" :=
  ⟨guest_count_shape_tolerant.1 [.obj [], .obj [], .obj [], .obj [], .obj []]
     (by intro x hx; fin_cases hx <;> simp),
   guest_count_shape_tolerant.2 [("data", .arr [.obj [], .obj [], .obj [], .obj [], .obj []])]
     [.obj [], .obj [], .obj [], .obj [], .obj []] rfl rfl⟩

/-- Characterization of the occupancy section on an error-free dict
payload: the f-string template is filled with the four looked-up values,
zero-defaulted. -/
theorem occupancyBody_obj (kvs : List (String × Json))
    (h : hasKey kvs "error" = false) :
    occupancyBody (.obj kvs) = .ok (occupancyRender
      (pyStr ((lookupKey kvs "total").getD (.num 0)))
      (pyStr ((lookupKey kvs "occupied").getD (.num 0)))
      (pyStr ((lookupKey kvs "available").getD (.num 0)))
      (pyStr ((lookupKey kvs "occupancyRate").getD (.num 0)))) := by
  simp only [occupancyBody, pyContains, h, pyOkBind, Bool.false_eq_true, if_false, dictGet]

/-- C7: for the payload `{total:22, occupied:15, available:7,
occupancyRate:68}` the occupancy section renders exactly those four values
in the fixed order total, occupied, available, rate; and each of the four
fields renders as zero when absent from the payload. -/
theorem occupancy_fixed_order_zero_fill :
    occupancyBody (.obj [("total", .num 22), ("occupied", .num 15),
        ("available", .num 7), ("occupancyRate", .num 68)]) =
      .ok "📊 OCCUPANCY STATISTICS\n═══════════════════════\nTotal Capsules: 22\nOccupied: 15 capsules\nAvailable: 7 capsules\nOccupancy Rate: 68%"
    ∧ (∀ kvs, hasKey kvs "error" = false → hasKey kvs "total" = false →
        ∃ o a r, occupancyBody (.obj kvs) = .ok (occupancyRender "0" o a r))
    ∧ (∀ kvs, hasKey kvs "error" = false → hasKey kvs "occupied" = false →
        ∃ t a r, occupancyBody (.obj kvs) = .ok (occupancyRender t "0" a r))
    ∧ (∀ kvs, hasKey kvs "error" = false → hasKey kvs "available" = false →
        ∃ t o r, occupancyBody (.obj kvs) = .ok (occupancyRender t o "0" r))
    ∧ (∀ kvs, hasKey kvs "error" = false → hasKey kvs "occupancyRate" = false →
        ∃ t o a, occupancyBody (.obj kvs) = .ok (occupancyRender t o a "0")) := by
  refine ⟨rfl, ?_, ?_, ?_, ?_⟩
  · intro kvs he hm
    have hh := occupancyBody_obj kvs he
    rw [lookupKey_none_of_hasKey_false kvs _ hm] at hh
    exact ⟨_, _, _, hh⟩
  · intro kvs he hm
    have hh := occupancyBody_obj kvs he
    rw [lookupKey_none_of_hasKey_false kvs _ hm] at hh
    exact ⟨_, _, _, hh⟩
  · intro kvs he hm
    have hh := occupancyBody_obj kvs he
    rw [lookupKey_none_of_hasKey_false kvs _ hm] at hh
    exact ⟨_, _, _, hh⟩
  · intro kvs he hm
    have hh := occupancyBody_obj kvs he
    rw [lookupKey_none_of_hasKey_false kvs _ hm] at hh
    exact ⟨_, _, _, hh⟩

/-- C7 witness: the empty payload renders all four values as zero. -/
theorem occupancy_fixed_order_zero_fill_witness :
    (∃ o a r, occupancyBody (.obj []) = .ok (occupancyRender "0" o a r))
    ∧ (∃ t a r, occupancyBody (.obj []) = .ok (occupancyRender t "0" a r)) :=
  ⟨occupancy_fixed_order_zero_fill.2.1 [] rfl rfl,
   occupancy_fixed_order_zero_fill.2.2.1 [] rfl rfl⟩

/-- C10: a dict response with neither an `error` key nor a `data` key is
not an error case: the guest section renders the normal success format
with a displayed count of 0, not the placeholder. -/
theorem guestSection_plain_dict_zero :
    ∀ kvs, hasKey kvs "error" = false → hasKey kvs "data" = false →
      guestBody (.obj kvs) = .ok (guestRender 0)
      ∧ guestRender 0 ≠ guestUnavailable := by
  intro kvs he hd
  constructor
  · simp only [guestBody, pyContains, he, pyOkBind, Bool.false_eq_true, if_false, hd]
    rfl
  · decide

/-- C10 witness: a pagination-style dict without `error` and `data` keys. -/
theorem guestSection_plain_dict_zero_witness :
    guestBody (.obj [("page", .num 1), ("limit", .num 100)]) =
      .ok "👥 GUEST INFORMATION\n═══════════════════\nChecked-in Guests: 0"
    ∧ guestRender 0 ≠ guestUnavailable :=
  guestSection_plain_dict_zero [("page", .num 1), ("limit", .num 100)] rfl rfl

/-! ## Capsule section lemmas -/

/-- Permutations preserve `List.any`. -/
theorem perm_any_eq {xs ys : List Json} (h : xs.Perm ys) (p : Json → Bool) :
    xs.any p = ys.any p := by
  cases hx : xs.any p <;> cases hy : ys.any p
  · rfl
  · rw [List.any_eq_false] at hx
    rw [List.any_eq_true] at hy
    rcases hy with ⟨a, ha, hpa⟩
    exact absurd hpa (hx a (h.mem_iff.mpr ha))
  · rw [List.any_eq_true] at hx
    rw [List.any_eq_false] at hy
    rcases hx with ⟨a, ha, hpa⟩
    exact absurd hpa (hy a (h.mem_iff.mp ha))
  · rfl

/-- No `GoodRec` record is the bare string `"error"`, so the list
membership test `"error" in capsules` is false. -/
theorem any_error_false_of_good (xs : List Json) (h : ∀ c ∈ xs, GoodRec c = true) :
    (xs.any (fun x => match x with | .str s => s == "error" | _ => false)) = false := by
  rw [List.any_eq_false]
  intro x hx
  have hxg := h x hx
  cases x <;> simp_all [GoodRec]

/-- The classification loop is filtering by section tag. -/
theorem classifyCapsules_eq (xs : List Json) (h : ∀ c ∈ xs, GoodRec c = true) :
    classifyCapsules xs =
      .ok (xs.filter (tagIs "back"), xs.filter (tagIs "middle"),
        xs.filter (tagIs "front")) := by
  induction xs with
  | nil => rfl
  | cons c rest ih =>
    have hc := h c (List.mem_cons_self _ _)
    have ihr := ih (fun x hx => h x (List.mem_cons_of_mem _ hx))
    cases c with
    | null => simp [GoodRec] at hc
    | bool b => simp [GoodRec] at hc
    | num n => simp [GoodRec] at hc
    | str s => simp [GoodRec] at hc
    | arr ys => simp [GoodRec] at hc
    | obj kvs =>
      simp only [classifyCapsules, dictGet, pyOkBind]
      cases hlk : lookupKey kvs "section" with
      | none =>
        simp [ihr, pyOkBind, List.filter_cons, tagIs, tagOf, objGetD, hlk]
      | some v =>
        cases v with
        | str t =>
          by_cases hb : t = "back"
          · subst hb
            simp [ihr, pyOkBind, List.filter_cons, tagIs, tagOf, objGetD, hlk]
          · by_cases hm2 : t = "middle"
            · subst hm2
              simp [ihr, pyOkBind, List.filter_cons, tagIs, tagOf, objGetD, hlk]
            · by_cases hf : t = "front"
              · subst hf
                simp [ihr, pyOkBind, List.filter_cons, tagIs, tagOf, objGetD, hlk]
              · simp [ihr, pyOkBind, List.filter_cons, tagIs, tagOf, objGetD, hlk,
                  hb, hm2, hf]
        | null => simp [ihr, pyOkBind, List.filter_cons, tagIs, tagOf, objGetD, hlk]
        | bool b => simp [ihr, pyOkBind, List.filter_cons, tagIs, tagOf, objGetD, hlk]
        | num n => simp [ihr, pyOkBind, List.filter_cons, tagIs, tagOf, objGetD, hlk]
        | arr ys => simp [GoodRec, hlk] at hc
        | obj okvs => simp [GoodRec, hlk] at hc

/-- Every `GoodRec` record's `"number"` value is the string `numStrOf`. -/
theorem numValOf_eq_str (c : Json) (h : GoodRec c = true) :
    numValOf c = .str (numStrOf c) := by
  cases c with
  | obj kvs =>
    cases hn : lookupKey kvs "number" with
    | none => simp [GoodRec, hn] at h
    | some v =>
      cases v <;> simp_all [GoodRec, numValOf, numStrOf, objGetD, hn]
  | null => simp [GoodRec] at h
  | bool b => simp [GoodRec] at h
  | num n => simp [GoodRec] at h
  | str s => simp [GoodRec] at h
  | arr ys => simp [GoodRec] at h

/-- The number comprehension is a filter-then-map. -/
theorem comprehendNumbers_eq (keep : Bool → Bool) (cl : List Json)
    (h : ∀ c ∈ cl, GoodRec c = true) :
    comprehendNumbers keep cl =
      .ok ((cl.filter (fun c => keep (availOf c))).map numValOf) := by
  induction cl with
  | nil => rfl
  | cons c rest ih =>
    have hc := h c (List.mem_cons_self _ _)
    have ihr := ih (fun x hx => h x (List.mem_cons_of_mem _ hx))
    cases c with
    | null => simp [GoodRec] at hc
    | bool b => simp [GoodRec] at hc
    | num n => simp [GoodRec] at hc
    | str s => simp [GoodRec] at hc
    | arr ys => simp [GoodRec] at hc
    | obj kvs =>
      have hav : pyTruthy ((lookupKey kvs "isAvailable").getD .null)
          = availOf (.obj kvs) := rfl
      have hnum : ∃ s, lookupKey kvs "number" = some (.str s) := by
        cases hn : lookupKey kvs "number" with
        | none => simp [GoodRec, hn] at hc
        | some v => cases v <;> simp_all [GoodRec, hn]
      rcases hnum with ⟨s, hs⟩
      simp only [comprehendNumbers, dictGet, pyOkBind, hav]
      by_cases hk : keep (availOf (.obj kvs)) = true
      · simp [hk, subscriptKey, hs, ihr, pyOkBind, List.filter_cons, numValOf,
          objGetD]
      · have hk2 : keep (availOf (.obj kvs)) = false := by
          cases hkk : keep (availOf (.obj kvs))
          · rfl
          · exact absurd hkk hk
        simp [hk2, ihr, List.filter_cons]

/-- Python `join` applied to a list of actual strings. -/
theorem pyJoin_map_str (sep : String) (ss : List String) :
    pyJoin sep (ss.map Json.str) = .ok (joinSep sep ss) := by
  induction ss with
  | nil => rfl
  | cons s rest ih =>
    cases rest with
    | nil => rfl
    | cons s2 r2 =>
      simp only [List.map_cons] at ih ⊢
      simp only [pyJoin, ih, pyOkBind]
      rfl

/-- Python `join` on strings produced through a composed map. -/
theorem pyJoin_map_comp {α : Type} (sep : String) (f : α → String) (l : List α) :
    pyJoin sep (l.map (Json.str ∘ f)) = .ok (joinSep sep (l.map f)) := by
  rw [← List.map_map]
  exact pyJoin_map_str sep (l.map f)

/-- Emptiness of a list is preserved by `map`. -/
theorem isEmpty_map_eq {α β : Type} (f : α → β) (l : List α) :
    (l.map f).isEmpty = l.isEmpty := by
  cases l <;> rfl

/-- A group's rendering loop iteration produces its `groupBlock`. -/
theorem groupLines_eq (name : String) (cl : List Json)
    (h : ∀ c ∈ cl, GoodRec c = true) :
    groupLines name cl = .ok (groupBlock name cl) := by
  have hfo : ∀ c ∈ cl.filter (fun c => !availOf c), GoodRec c = true :=
    fun c hcf => h c (List.mem_of_mem_filter hcf)
  have hfa : ∀ c ∈ cl.filter (fun c => availOf c), GoodRec c = true :=
    fun c hcf => h c (List.mem_of_mem_filter hcf)
  have hmo : (cl.filter (fun c => !availOf c)).map numValOf
      = ((cl.filter (fun c => !availOf c)).map numStrOf).map Json.str := by
    rw [List.map_map]
    exact List.map_congr_left (fun c hcf => numValOf_eq_str c (hfo c hcf))
  have hma : (cl.filter (fun c => availOf c)).map numValOf
      = ((cl.filter (fun c => availOf c)).map numStrOf).map Json.str := by
    rw [List.map_map]
    exact List.map_congr_left (fun c hcf => numValOf_eq_str c (hfa c hcf))
  by_cases hcl : cl.isEmpty
  · simp [groupLines, groupBlock, hcl]
  · by_cases ho : (cl.filter (fun c => !availOf c)).isEmpty
      <;> by_cases ha : (cl.filter (fun c => availOf c)).isEmpty
      <;> simp [groupLines, groupBlock, hcl,
            comprehendNumbers_eq (fun b => !b) cl h,
            comprehendNumbers_eq (fun b => b) cl h,
            pyOkBind, hmo, hma, isEmpty_map_eq, ho, ha, pyJoin_map_str,
            pyJoin_map_comp]

/-- The capsule section body renders `capsuleSectionSpec` on well-formed
records. -/
theorem capsuleBody_eq_spec (xs : List Json) (h : ∀ c ∈ xs, GoodRec c = true) :
    capsuleBody (.arr xs) = .ok (capsuleSectionSpec xs) := by
  have hfb : ∀ c ∈ xs.filter (tagIs "back"), GoodRec c = true :=
    fun c hcf => h c (List.mem_of_mem_filter hcf)
  have hfm : ∀ c ∈ xs.filter (tagIs "middle"), GoodRec c = true :=
    fun c hcf => h c (List.mem_of_mem_filter hcf)
  have hff : ∀ c ∈ xs.filter (tagIs "front"), GoodRec c = true :=
    fun c hcf => h c (List.mem_of_mem_filter hcf)
  simp only [capsuleBody, pyContains, any_error_false_of_good xs h, pyOkBind,
    classifyCapsules_eq xs h,
    groupLines_eq "back" _ hfb, groupLines_eq "middle" _ hfm,
    groupLines_eq "front" _ hff, capsuleSectionSpec, capsuleHeaderLines]

/-- An empty group is omitted from the rendering. -/
theorem groupBlock_nil_of_any_false (t : String) (xs : List Json)
    (h : xs.any (fun c => tagIs t c) = false) :
    groupBlock t (xs.filter (tagIs t)) = [] := by
  have hnil : xs.filter (tagIs t) = [] := by
    rw [List.filter_eq_nil_iff]
    rw [List.any_eq_false] at h
    exact fun a ha => by simpa using h a ha
  rw [hnil]
  rfl

/-- The present groups expand, in order, to the three group blocks. -/
theorem presentGroups_flatten (xs : List Json) :
    ((presentGroups xs).map (fun t => groupBlock t (xs.filter (tagIs t)))).flatten =
      groupBlock "back" (xs.filter (tagIs "back"))
        ++ groupBlock "middle" (xs.filter (tagIs "middle"))
        ++ groupBlock "front" (xs.filter (tagIs "front")) := by
  unfold presentGroups
  cases h1 : xs.any (fun c => tagIs "back" c)
    <;> cases h2 : xs.any (fun c => tagIs "middle" c)
    <;> cases h3 : xs.any (fun c => tagIs "front" c)
    <;> simp [List.filter_cons, h1, h2, h3,
          groupBlock_nil_of_any_false "back" xs,
          groupBlock_nil_of_any_false "middle" xs,
          groupBlock_nil_of_any_false "front" xs]

/-- C4: on a list of well-formed capsule records the section classifies
each record by its section tag into exactly the groups back, middle and
front, silently dropping other tags, splits each group by the
`isAvailable` flag into occupied and available number lists, and omits
empty groups (first conjunct, against `capsuleSectionSpec`); the concrete
single-record `"front"` list renders only a FRONT SECTION block with F1
occupied and `None` available (second conjunct). -/
theorem capsule_section_classification :
    (∀ xs, (∀ c ∈ xs, GoodRec c = true) →
      capsuleBody (.arr xs) = .ok (capsuleSectionSpec xs))
    ∧ capsuleBody (.arr [.obj [("section", .str "front"),
        ("isAvailable", .bool false), ("number", .str "F1")]]) =
      .ok "🛏️ CAPSULE STATUS BY SECTION\n═══════════════════════════\n\nFRONT SECTION (1 capsules):\n  Occupied: F1\n  Available: None" :=
  ⟨capsuleBody_eq_spec, rfl⟩

/-- C4 witness: the general conjunct applied to the concrete
single-record list. -/
theorem capsule_section_classification_witness :
    capsuleBody (.arr [.obj [("section", .str "front"),
        ("isAvailable", .bool false), ("number", .str "F1")]]) =
      .ok (capsuleSectionSpec [.obj [("section", .str "front"),
        ("isAvailable", .bool false), ("number", .str "F1")]]) :=
  capsule_section_classification.1 _
    (by intro c hc; rw [List.mem_singleton] at hc; subst hc; rfl)

/-- C9: the non-empty groups are rendered in the fixed order back, middle,
front — the rendered section is the header followed by the blocks of
`presentGroups`, whose order is a fixed subsequence of
back, middle, front and is invariant under permutation of the input
records. -/
theorem capsule_groups_fixed_order :
    (∀ xs, (∀ c ∈ xs, GoodRec c = true) →
      capsuleBody (.arr xs) = .ok (pyRstrip (joinSep "\n"
        (capsuleHeaderLines ++
          ((presentGroups xs).map
            (fun t => groupBlock t (xs.filter (tagIs t)))).flatten))))
    ∧ (∀ xs ys : List Json, xs.Perm ys → presentGroups xs = presentGroups ys) := by
  constructor
  · intro xs h
    rw [capsuleBody_eq_spec xs h, presentGroups_flatten]
    rfl
  · intro xs ys hperm
    unfold presentGroups
    exact List.filter_congr
      (fun t _ => perm_any_eq hperm (fun c => tagIs t c))

/-- C9 witness: a list with a front record before a back record still
renders the back block first. -/
theorem capsule_groups_fixed_order_witness :
    capsuleBody (.arr [.obj [("section", .str "front"), ("number", .str "F1")],
        .obj [("section", .str "back"), ("number", .str "B2")]]) =
      .ok (pyRstrip (joinSep "\n"
        (capsuleHeaderLines ++
          ((presentGroups [.obj [("section", .str "front"), ("number", .str "F1")],
              .obj [("section", .str "back"), ("number", .str "B2")]]).map
            (fun t => groupBlock t
              ([.obj [("section", .str "front"), ("number", .str "F1")],
                .obj [("section", .str "back"), ("number", .str "B2")]].filter (tagIs t)))).flatten)))
    ∧ presentGroups [.obj [("section", .str "front"), ("number", .str "F1")],
        .obj [("section", .str "back"), ("number", .str "B2")]] =
      presentGroups [.obj [("section", .str "back"), ("number", .str "B2")],
        .obj [("section", .str "front"), ("number", .str "F1")]] :=
  ⟨capsule_groups_fixed_order.1 _
    (by intro c hc
        rw [List.mem_cons] at hc
        rcases hc with hc | hc
        · subst hc; rfl
        · rw [List.mem_singleton] at hc; subst hc; rfl),
   capsule_groups_fixed_order.2 _ _ (List.Perm.swap _ _ _)⟩

/-! ## Scheduler and delivery claims -/

/-- C2: when the health check returns false on all three attempts, the run
performs exactly one alert delivery attempt (through the Telegram chat-bot
channel), zero report-generation attempts and zero report delivery
attempts, and returns normally whatever the alert outcome (`send_telegram`
swallows its delivery failure), with no delivery flag. -/
theorem health_exhaustion_single_alert (env : Env)
    (h0 : env.health 0 = false) (h1 : env.health 1 = false)
    (h2 : env.health 2 = false) :
    ∃ r, generate_and_send_report env = .ok r
      ∧ (r.trace.filter isAlertAction).length = 1
      ∧ (r.trace.filter isGenerateAction).length = 0
      ∧ (r.trace.filter isChannelAction).length = 0
      ∧ r.deliverySuccess = none := by
  have hrange : List.range 3 = [0, 1, 2] := rfl
  refine ⟨⟨[.healthCheck false, .sleepSecs 5, .healthCheck false,
      .sleepSecs 5, .healthCheck false,
      .alertSend (send_telegram env.tgToken env.tgChat env.alertPostOk)],
      none⟩, ?_, rfl, rfl, rfl, rfl⟩
  simp [generate_and_send_report, healthRetryLoop, h0, h1, h2, hrange]

/-- C2 witness: a concrete environment whose health probe always fails. -/
theorem health_exhaustion_single_alert_witness :
    ∃ r, generate_and_send_report envAllHealthFail = .ok r
      ∧ (r.trace.filter isAlertAction).length = 1
      ∧ (r.trace.filter isGenerateAction).length = 0
      ∧ (r.trace.filter isChannelAction).length = 0
      ∧ r.deliverySuccess = none :=
  health_exhaustion_single_alert envAllHealthFail rfl rfl rfl

/-- The health retry loop performs no generation, backup or channel
delivery actions, successful or not. -/
theorem healthRetryLoop_actions (env : Env) (m : Nat) (l : List Nat) :
    ((healthRetryLoop env m l).1.filter isGenerateAction) = []
    ∧ ((healthRetryLoop env m l).1.filter isSaveAction) = []
    ∧ ((healthRetryLoop env m l).1.filter isChannelAction) = []
    ∧ (∀ c, ((healthRetryLoop env m l).1.filter (isChannelOf c)) = [])
    ∧ ((healthRetryLoop env m l).1.filter isChannelSuccess) = [] := by
  induction l with
  | nil => exact ⟨rfl, rfl, rfl, fun c => rfl, rfl⟩
  | cons a rest ih =>
    rcases hrec : healthRetryLoop env m rest with ⟨acts, healthy⟩
    rw [hrec] at ih
    unfold healthRetryLoop
    rw [hrec]
    by_cases hh : env.health a = true
    · simp [hh, isGenerateAction, isSaveAction, isChannelAction, isChannelOf,
        isChannelSuccess]
    · have hh2 : env.health a = false := by
        cases hha : env.health a
        · rfl
        · exact absurd hha hh
      by_cases hlt : a < m - 1
      · simp [hh2, hlt, List.filter_cons, isGenerateAction, isSaveAction,
          isChannelAction, isChannelOf, isChannelSuccess, ih.1, ih.2.1, ih.2.2.1,
          ih.2.2.2.1, ih.2.2.2.2]
      · simp [hh2, hlt, List.filter_cons, isGenerateAction, isSaveAction,
          isChannelAction, isChannelOf, isChannelSuccess]

/-- The channel segment contains no backup action. -/
theorem channelActs_no_save (env : Env) :
    (channelActs env).filter isSaveAction = [] := by
  unfold channelActs
  by_cases htg : tgCfg env = true
    <;> by_cases hwa : (env.waUrl != "") = true
    <;> by_cases hem : (env.emailSender != "") = true
    <;> simp [htg, hwa, hem, isSaveAction]

/-- Each configured channel contributes exactly one attempt to the channel
segment; an unconfigured channel contributes none. -/
theorem channelActs_counts (env : Env) :
    ((channelActs env).filter (isChannelOf .telegram)).length
      = (if tgCfg env then 1 else 0)
    ∧ ((channelActs env).filter (isChannelOf .whatsapp)).length
      = (if env.waUrl != "" then 1 else 0)
    ∧ ((channelActs env).filter (isChannelOf .email)).length
      = (if env.emailSender != "" then 1 else 0) := by
  unfold channelActs
  by_cases htg : tgCfg env = true
    <;> by_cases hwa : (env.waUrl != "") = true
    <;> by_cases hem : (env.emailSender != "") = true
    <;> simp [htg, hwa, hem, isChannelOf]

/-- The delivery flag is true exactly when some action of the channel
segment is a successful send. -/
theorem overallDS_iff (env : Env) :
    overallDS env = true ↔ ∃ a ∈ channelActs env, isChannelSuccess a = true := by
  unfold overallDS channelActs
  by_cases htg : tgCfg env = true
    <;> by_cases hwa : (env.waUrl != "") = true
    <;> by_cases hem : (env.emailSender != "") = true
    <;> simp [htg, hwa, hem, isChannelSuccess]
    <;> tauto

/-- On the healthy path with a generated report, the run's trace is the
health actions, then generation, then exactly one backup write, then the
channel segment; the flag is `overallDS`. -/
theorem generate_and_send_report_ok (env : Env) (acts : List RunAction)
    (hl : healthRetryLoop env 3 (List.range 3) = (acts, true))
    (rep : String) (hg : generate_report env = .ok rep) :
    generate_and_send_report env = .ok
      { trace := acts ++ [.generateReport, .saveFile (save_to_file env.savePathOk)]
          ++ channelActs env,
        deliverySuccess := some (overallDS env) } := by
  unfold generate_and_send_report
  rw [hl]
  simp only [Bool.not_true, Bool.false_eq_true, if_false]
  rw [hg]
  simp only [pyOkBind]
  unfold channelActs overallDS tgCfg
  by_cases htg : (env.tgToken != "" && env.tgChat != "") = true
    <;> by_cases hwa : (env.waUrl != "") = true
    <;> by_cases hem : (env.emailSender != "") = true
    <;> simp [htg, hwa, hem, List.append_assoc, tgCfg]

/-- C3: every run that reaches delivery writes the local file backup
exactly once and strictly before any remote channel attempt, attempts
every configured channel (and only those) exactly once regardless of the
other channels' outcomes, and ends with a delivery-success flag that is
true iff at least one attempted channel succeeded. -/
theorem delivery_dispatch_properties (env : Env) (r : RunResult) (b : Bool)
    (hrun : generate_and_send_report env = .ok r)
    (hds : r.deliverySuccess = some b) :
    (∃ p q s, r.trace = p ++ .saveFile s :: q
      ∧ p.filter isSaveAction = [] ∧ q.filter isSaveAction = []
      ∧ p.filter isChannelAction = [])
    ∧ (r.trace.filter (isChannelOf .telegram)).length
        = (if tgCfg env then 1 else 0)
    ∧ (r.trace.filter (isChannelOf .whatsapp)).length
        = (if env.waUrl != "" then 1 else 0)
    ∧ (r.trace.filter (isChannelOf .email)).length
        = (if env.emailSender != "" then 1 else 0)
    ∧ (b = true ↔ ∃ a ∈ r.trace, isChannelSuccess a = true) := by
  rcases hl : healthRetryLoop env 3 (List.range 3) with ⟨acts, healthy⟩
  have hacts := healthRetryLoop_actions env 3 (List.range 3)
  rw [hl] at hacts
  cases healthy with
  | false =>
    unfold generate_and_send_report at hrun
    rw [hl] at hrun
    simp only [Bool.not_false, if_true, Except.ok.injEq] at hrun
    rw [← hrun] at hds
    simp at hds
  | true =>
    cases hg : generate_report env with
    | error e =>
      unfold generate_and_send_report at hrun
      rw [hl] at hrun
      simp only [Bool.not_true, Bool.false_eq_true, if_false] at hrun
      rw [hg] at hrun
      simp [pyErrorBind] at hrun
    | ok rep =>
      have heq := generate_and_send_report_ok env acts hl rep hg
      rw [heq] at hrun
      have hr := Except.ok.inj hrun
      subst hr
      simp only [Option.some.injEq] at hds
      subst hds
      refine ⟨⟨acts ++ [.generateReport], channelActs env,
        save_to_file env.savePathOk, ?_, ?_, ?_, ?_⟩, ?_, ?_, ?_, ?_⟩
      · simp
      · simp [List.filter_append, hacts.2.1, isSaveAction]
      · exact channelActs_no_save env
      · simp [List.filter_append, hacts.2.2.1, isChannelAction]
      · simp [List.filter_append, hacts.2.2.2.1 Channel.telegram, isChannelOf,
          (channelActs_counts env).1]
      · simp [List.filter_append, hacts.2.2.2.1 Channel.whatsapp, isChannelOf,
          (channelActs_counts env).2.1]
      · simp [List.filter_append, hacts.2.2.2.1 Channel.email, isChannelOf,
          (channelActs_counts env).2.2]
      · rw [overallDS_iff env]
        constructor
        · rintro ⟨a, ha, hsa⟩
          exact ⟨a, by simp [List.mem_append, ha], hsa⟩
        · rintro ⟨a, ha, hsa⟩
          rw [List.mem_append, List.mem_append] at ha
          rcases ha with (ha | ha) | ha
          · have hnone := (List.filter_eq_nil_iff.mp hacts.2.2.2.2) a ha
            simp [hsa] at hnone
          · rcases List.mem_cons.mp ha with rfl | ha2
            · simp [isChannelSuccess] at hsa
            · rw [List.mem_singleton] at ha2
              subst ha2
              simp [isChannelSuccess] at hsa
          · exact ⟨a, ha, hsa⟩

/-- C3 witness: a healthy run with only Telegram configured, whose post
succeeds: one backup before the single channel attempt, and an overall
success flag. -/
theorem delivery_dispatch_properties_witness :
    generate_and_send_report envTelegramOnly =
      .ok ⟨[.healthCheck true, .generateReport, .saveFile true,
            .channelSend .telegram true], some true⟩
    ∧ ((∃ p q s, [RunAction.healthCheck true, RunAction.generateReport,
          RunAction.saveFile true, RunAction.channelSend .telegram true]
            = p ++ .saveFile s :: q
          ∧ p.filter isSaveAction = [] ∧ q.filter isSaveAction = []
          ∧ p.filter isChannelAction = [])
      ∧ ([RunAction.healthCheck true, RunAction.generateReport,
          RunAction.saveFile true, RunAction.channelSend .telegram true].filter
            (isChannelOf .telegram)).length = (if tgCfg envTelegramOnly then 1 else 0)
      ∧ ([RunAction.healthCheck true, RunAction.generateReport,
          RunAction.saveFile true, RunAction.channelSend .telegram true].filter
            (isChannelOf .whatsapp)).length
          = (if envTelegramOnly.waUrl != "" then 1 else 0)
      ∧ ([RunAction.healthCheck true, RunAction.generateReport,
          RunAction.saveFile true, RunAction.channelSend .telegram true].filter
            (isChannelOf .email)).length
          = (if envTelegramOnly.emailSender != "" then 1 else 0)
      ∧ (true = true ↔ ∃ a ∈ [RunAction.healthCheck true, RunAction.generateReport,
          RunAction.saveFile true, RunAction.channelSend .telegram true],
            isChannelSuccess a = true)) :=
  ⟨rfl, delivery_dispatch_properties envTelegramOnly
    ⟨[.healthCheck true, .generateReport, .saveFile true,
      .channelSend .telegram true], some true⟩ true rfl rfl⟩
